import Mathlib

/-!
Shallow embedding of the kintone inventory-management scripts
(`inventory_config_v2.0.1.js`, the balance-update script, `inventory_batch_update.js`,
`dashboard_view_part1.js`, and the shared utils script).

Conventions of the embedding:
* JavaScript numbers are modelled as rationals (`ℚ`); all quantities in the
  scripts are produced by `parseFloat` and ordinary arithmetic.
* Calendar dates are modelled as integers (days).  The scripts compare ISO
  `YYYY-MM-DD` strings lexicographically, which agrees with chronological
  order, so integer order is a faithful model of the comparisons used.
* A JavaScript property access that can yield `undefined` is modelled with
  `Option`.
* JavaScript `Map` objects keyed by date are modelled as association lists
  in insertion order.
-/

set_option maxRecDepth 8000
set_option maxHeartbeats 1600000

namespace StockApp

/-! ### Configuration constants (inventory_config_v2.0.1.js) -/

/-- CONFIG.STATUSES.CONFIRMED -/
def STATUS_CONFIRMED : String := "確定"

/-- CONFIG.STATUSES.PLANNED -/
def STATUS_PLANNED : String := "予定"

/-- CONFIG.STATUSES.CANCELLED -/
def STATUS_CANCELLED : String := "取消"

/-- CONFIG.TRANSACTION_TYPES.RECEIVED -/
def TYPE_RECEIVED : String := "入庫"

/-- CONFIG.TRANSACTION_TYPES.ISSUED -/
def TYPE_ISSUED : String := "出庫"

/-- CONFIG.TRANSACTION_TYPES.ADJUSTMENT -/
def TYPE_ADJUSTMENT : String := "棚卸調整"

/-- CONFIG.TRANSACTION_TYPES.INITIAL -/
def TYPE_INITIAL : String := "初期在庫"

/-- CONFIG.ALERT_FLAGS, as the association of property names to values that
the configuration file actually defines (keys `NORMAL`, `LOW`, `OUT`,
`PLANNED_LOW`, `PLANNED_OUT`). -/
def ALERT_FLAGS : List (String × String) :=
  [("NORMAL", "正常"), ("LOW", "在庫少"), ("OUT", "在庫切れ"),
   ("PLANNED_LOW", "予定在庫少"), ("PLANNED_OUT", "予定在庫切れ")]

/-- JavaScript property access `obj.key` on a plain object: `some` value when
the property exists, `none` (i.e. `undefined`) when it does not. -/
def propGet (obj : List (String × String)) (key : String) : Option String :=
  match obj with
  | [] => none
  | (k, v) :: rest => if k = key then some v else propGet rest key

/-! ### Utils (shared utils script, `roundDecimal`) -/

/-- JavaScript `Math.round`: rounds half toward positive infinity. -/
def jsRound (x : ℚ) : ℤ := ⌊x + 1 / 2⌋

/-- `Utils.roundDecimal(num, decimals)`: `Math.round(num * factor) / factor`
with `factor = 10 ^ decimals`. -/
def roundDecimal (num : ℚ) (decimals : ℕ) : ℚ :=
  let factor : ℚ := 10 ^ decimals
  (jsRound (num * factor) : ℚ) / factor

/-! ### Costing function (`calculateMovingAverageCost`, balance-update script) -/

/-- `calculateMovingAverageCost(currentQty, currentCost, addQty, addCost)`. -/
def calculateMovingAverageCost (currentQty currentCost addQty addCost : ℚ) : ℚ :=
  if addQty ≤ 0 then
    currentCost
  else
    let currentAmount := currentQty * currentCost
    let addAmount := addQty * addCost
    let newQty := currentQty + addQty
    if newQty ≤ 0 then 0
    else roundDecimal ((currentAmount + addAmount) / newQty) 2

/-! ### Alert-flag functions -/

/-- `determineAlertFlag(currentQty, safetyStock)` from the balance-update
script.  It returns `CONFIG.ALERT_FLAGS.OUT_OF_STOCK`,
`CONFIG.ALERT_FLAGS.LOW_STOCK`, or `CONFIG.ALERT_FLAGS.NORMAL` — property
accesses on the `ALERT_FLAGS` config object, which defines no `OUT_OF_STOCK`
or `LOW_STOCK` properties, hence the `Option` result. -/
def determineAlertFlag (currentQty safetyStock : ℚ) : Option String :=
  if currentQty ≤ 0 then propGet ALERT_FLAGS "OUT_OF_STOCK"
  else if currentQty < safetyStock then propGet ALERT_FLAGS "LOW_STOCK"
  else propGet ALERT_FLAGS "NORMAL"

/-- `getAlertFlag(currentQty, safetyStock)` from `inventory_batch_update.js`,
which returns string literals directly. -/
def getAlertFlag (currentQty safetyStock : ℚ) : String :=
  if currentQty ≤ 0 then "在庫切れ"
  else if currentQty < safetyStock then "在庫少"
  else "正常"

/-! ### Association-list lookup (JavaScript `Map.get`, left-biased) -/

/-- Lookup in an association list; models `Map.get` returning `undefined`
(`none`) when the key is absent. -/
def assocLookup {α β : Type} [DecidableEq α] : List (α × β) → α → Option β
  | [], _ => none
  | (k, v) :: rest, a => if k = a then some v else assocLookup rest a

/-! ### Transaction aggregation (`aggregateTransactionsByDate`, dashboard_view_part1.js) -/

/-- One per-date bucket of the daily map built by `aggregateTransactionsByDate`. -/
structure DailyBucket where
  received_qty : ℚ
  issued_qty : ℚ
  planned_received_qty : ℚ
  planned_issued_qty : ℚ
deriving DecidableEq

/-- The all-zero bucket installed by `dailyMap.set(date, {...})` and used as
the fallback object in `dailyTransactions.get(dateStr) || {...}`. -/
def zeroBucket : DailyBucket := ⟨0, 0, 0, 0⟩

/-- A transaction record, restricted to the fields the aggregator reads
(extraction of the fields from the raw kintone record via
`Utils.getFieldValue` / `Utils.getNumberValue` is modelled separately). -/
structure Tx where
  date : ℤ
  status : String
  txType : String
  quantity : ℚ
  unit_cost : ℚ
  physical_count : ℚ
  before_qty : ℚ
deriving DecidableEq

/-- The per-transaction mutation of the date's bucket inside the `forEach`
of `aggregateTransactionsByDate`. -/
def aggUpdate (daily : DailyBucket) (tx : Tx) : DailyBucket :=
  if tx.status = STATUS_CONFIRMED then
    if tx.txType = TYPE_RECEIVED ∨ tx.txType = TYPE_INITIAL then
      { daily with received_qty := daily.received_qty + tx.quantity }
    else if tx.txType = TYPE_ISSUED then
      { daily with issued_qty := daily.issued_qty + tx.quantity }
    else if tx.txType = TYPE_ADJUSTMENT then
      let diff := tx.physical_count - tx.before_qty
      if diff > 0 then { daily with received_qty := daily.received_qty + diff }
      else if diff < 0 then { daily with issued_qty := daily.issued_qty + |diff| }
      else daily
    else daily
  else if tx.status = STATUS_PLANNED then
    if tx.txType = TYPE_RECEIVED ∨ tx.txType = TYPE_INITIAL then
      { daily with planned_received_qty := daily.planned_received_qty + tx.quantity }
    else if tx.txType = TYPE_ISSUED then
      { daily with planned_issued_qty := daily.planned_issued_qty + tx.quantity }
    else daily
  else daily

/-- One iteration of the `forEach` in `aggregateTransactionsByDate`: ensure
the date has a bucket (inserted at the end, as `Map.set` does for a new key),
then mutate that bucket. -/
def aggStep (dailyMap : List (ℤ × DailyBucket)) (tx : Tx) : List (ℤ × DailyBucket) :=
  if (assocLookup dailyMap tx.date).isSome then
    dailyMap.map fun kv => (kv.1, if kv.1 = tx.date then aggUpdate kv.2 tx else kv.2)
  else
    dailyMap ++ [(tx.date, aggUpdate zeroBucket tx)]

/-- `aggregateTransactionsByDate(transactions)`. -/
def aggregateTransactionsByDate (transactions : List Tx) : List (ℤ × DailyBucket) :=
  transactions.foldl aggStep []

/-- `dailyTransactions.get(dateStr) || {received_qty: 0, ...}`. -/
def dailyGetOrZero (dailyMap : List (ℤ × DailyBucket)) (d : ℤ) : DailyBucket :=
  (assocLookup dailyMap d).getD zeroBucket

/-! ### Projection reconstruction (`updateInventoryProjection`, dashboard_view_part1.js) -/

/-- One element of the `summaryData` array. -/
structure SummaryEntry where
  date : ℤ
  opening_qty : ℚ
  received_qty : ℚ
  issued_qty : ℚ
  ending_qty : ℚ
  planned_received_qty : ℚ
  planned_issued_qty : ℚ
  projected_ending_qty : ℚ
deriving DecidableEq

/-- Lookback window size (`const PAST_DAYS = 30`). -/
def PAST_DAYS : ℕ := 30

/-- Lookahead window size (`const FUTURE_DAYS = 90`). -/
def FUTURE_DAYS : ℕ := 90

/-- Step 1 of `updateInventoryProjection`: the backward loop
`for (let i = PAST_DAYS; i > 0; i--)`.  The counter `n + 1` plays the role of
`i`, so the first emitted entry is for `today - PAST_DAYS` (oldest first, as
in the source), and `pastRunningQty` is threaded through exactly as in the
source: it is updated to `qty - received + issued` before being emitted as
that day's `opening_qty`. -/
def pastEntries (dailyMap : List (ℤ × DailyBucket)) (today : ℤ) :
    ℚ → ℕ → List SummaryEntry
  | _, 0 => []
  | pastRunningQty, n + 1 =>
    let dateInt := today - ((n : ℤ) + 1)
    let dailyData := dailyGetOrZero dailyMap dateInt
    let newRunningQty := pastRunningQty - dailyData.received_qty + dailyData.issued_qty
    let endingQty := newRunningQty + dailyData.received_qty - dailyData.issued_qty
    let projectedEndingQty := endingQty + dailyData.planned_received_qty - dailyData.planned_issued_qty
    { date := dateInt
      opening_qty := newRunningQty
      received_qty := dailyData.received_qty
      issued_qty := dailyData.issued_qty
      ending_qty := endingQty
      planned_received_qty := dailyData.planned_received_qty
      planned_issued_qty := dailyData.planned_issued_qty
      projected_ending_qty := projectedEndingQty }
      :: pastEntries dailyMap today newRunningQty n

/-- Step 2 of `updateInventoryProjection`: the forward loop
`for (let i = 0; i <= FUTURE_DAYS; i++)`, written with the current date and
the two running quantities explicit; `count` is the number of remaining
iterations (`FUTURE_DAYS + 1` initially). -/
def futureEntries (dailyMap : List (ℤ × DailyBucket)) :
    ℤ → ℚ → ℚ → ℕ → List SummaryEntry
  | _, _, _, 0 => []
  | d, futureRunningQty, projectedRunningQty, n + 1 =>
    let dailyData := dailyGetOrZero dailyMap d
    let openingQty := futureRunningQty
    let endingQty := openingQty + dailyData.received_qty - dailyData.issued_qty
    let projectedOpeningQty := projectedRunningQty
    let projectedEndingQty := projectedOpeningQty + dailyData.received_qty - dailyData.issued_qty
      + dailyData.planned_received_qty - dailyData.planned_issued_qty
    { date := d
      opening_qty := openingQty
      received_qty := dailyData.received_qty
      issued_qty := dailyData.issued_qty
      ending_qty := endingQty
      planned_received_qty := dailyData.planned_received_qty
      planned_issued_qty := dailyData.planned_issued_qty
      projected_ending_qty := projectedEndingQty }
      :: futureEntries dailyMap (d + 1) endingQty projectedEndingQty n

/-- The pure core of `updateInventoryProjection`: from the authoritative
current quantity, the aggregated daily map and today's date, build the
`summaryData` array (30 past entries, then today and 90 future entries). -/
def buildSummaryData (currentQty : ℚ) (dailyMap : List (ℤ × DailyBucket))
    (today : ℤ) : List SummaryEntry :=
  let todayTx := dailyGetOrZero dailyMap today
  let todayOpening := currentQty - todayTx.received_qty + todayTx.issued_qty
  pastEntries dailyMap today todayOpening PAST_DAYS
    ++ futureEntries dailyMap today todayOpening todayOpening (FUTURE_DAYS + 1)

/-! ### Stockout check (`checkStockoutAlert`, dashboard_view_part1.js) -/

/-- `checkStockoutAlert(summaryData)`: scan `summaryData` in order and report
the first entry with a future date and `projected_ending_qty <= 0`; the
result is the reported date (`none` when nothing is reported). -/
def checkStockoutAlert (today : ℤ) (summaryData : List SummaryEntry) : Option ℤ :=
  (summaryData.find? fun data =>
    decide (today < data.date) && decide (data.projected_ending_qty ≤ 0)).map
      (fun data => data.date)

/-! ### Summary merger (`upsertSummaryRecords`, dashboard_view_part1.js) -/

/-- The deterministic composite key
`SUM-{itemCode}-{warehouse}-{location}-{date}` of a persisted summary
record. -/
structure SKey where
  itemCode : String
  warehouse : String
  location : String
  date : ℤ
deriving DecidableEq

/-- CONFIG.FIELDS.PROJECTION, as the association of property names to field
codes that the configuration file actually defines.  Note there are no
`OPENING_QTY`, `RECEIVED_QTY` or `ISSUED_QTY` properties — the quantity
fields it defines are `BEGINNING_QTY`, `ACTUAL_RECEIVED_QTY` and
`ACTUAL_ISSUED_QTY`. -/
def PROJECTION_FIELDS : List (String × String) :=
  [("SUMMARY_ID", "summary_id"), ("SUMMARY_DATE", "summary_date"),
   ("ITEM_CODE", "item_code"), ("WAREHOUSE", "warehouse"),
   ("WAREHOUSE_NAME", "warehouse_name"), ("LOCATION", "location"),
   ("ITEM_NAME", "item_name"), ("UNIT", "unit"),
   ("BEGINNING_QTY", "beginning_qty"), ("ACTUAL_RECEIVED_QTY", "actual_received_qty"),
   ("ACTUAL_ISSUED_QTY", "actual_issued_qty"), ("ENDING_QTY", "ending_qty"),
   ("PLANNED_RECEIVED_QTY", "planned_received_qty"),
   ("PLANNED_ISSUED_QTY", "planned_issued_qty"),
   ("PROJECTED_ENDING_QTY", "projected_ending_qty"), ("ALERT_FLAG", "alert_flag"),
   ("CREATED_AT", "created_at"), ("UPDATED_AT", "updated_at")]

/-- A computed property name `[CONFIG.FIELDS.PROJECTION.key]` in an object
literal: the config value when the property is defined, and the literal
string `"undefined"` otherwise (JavaScript coerces an `undefined` computed
key to that string). -/
def projField (key : String) : String :=
  match propGet PROJECTION_FIELDS key with
  | some f => f
  | none => "undefined"

/-- A field value of a persisted record payload: a string, a number, or a
date (ISO date strings are modelled as integer days throughout). -/
inductive PVal where
  | pstr : String → PVal
  | pnum : ℚ → PVal
  | pint : ℤ → PVal
deriving DecidableEq

/-- The composite summary id string
`SUM-${itemCode}-${warehouse}-${location}-${date}` (the source strips the
dashes from the ISO date; the embedding keeps the integer date). -/
def summaryIdString (itemCode warehouse location : String) (date : ℤ) : String :=
  "SUM-" ++ itemCode ++ "-" ++ warehouse ++ "-" ++ location ++ "-" ++ toString date

/-- JavaScript object-literal property assignment: overwrite in place when
the property name already exists, append otherwise.  The `recordData`
literal assigns duplicate names (the collapsed `"undefined"` keys), and
later assignments win. -/
def jsObjSet (obj : List (String × PVal)) (k : String) (v : PVal) :
    List (String × PVal) :=
  if (assocLookup obj k).isSome then
    obj.map fun kv => (kv.1, if kv.1 = k then v else kv.2)
  else obj ++ [(k, v)]

/-- The `recordData` object of `upsertSummaryRecords`, property by property
in source order.  The three computed keys `OPENING_QTY`, `RECEIVED_QTY`,
`ISSUED_QTY` are undefined on the config object, so all three collapse into
the single property name `"undefined"`, whose final value is the issued
quantity (the last of the three assignments). -/
def buildRecordData (itemCode warehouse location : String) (data : SummaryEntry) :
    List (String × PVal) :=
  [(projField "SUMMARY_ID",
      PVal.pstr (summaryIdString itemCode warehouse location data.date)),
   (projField "SUMMARY_DATE", PVal.pint data.date),
   (projField "ITEM_CODE", PVal.pstr itemCode),
   (projField "WAREHOUSE", PVal.pstr warehouse),
   (projField "LOCATION", PVal.pstr location),
   (projField "OPENING_QTY", PVal.pnum data.opening_qty),
   (projField "RECEIVED_QTY", PVal.pnum data.received_qty),
   (projField "ISSUED_QTY", PVal.pnum data.issued_qty),
   (projField "ENDING_QTY", PVal.pnum data.ending_qty),
   (projField "PLANNED_RECEIVED_QTY", PVal.pnum data.planned_received_qty),
   (projField "PLANNED_ISSUED_QTY", PVal.pnum data.planned_issued_qty),
   (projField "PROJECTED_ENDING_QTY", PVal.pnum data.projected_ending_qty)].foldl
    (fun obj kv => jsObjSet obj kv.1 kv.2) []

/-- A kintone record update (`PUT`): the payload's fields replace the
record's fields of the same code; fields not in the payload are
preserved. -/
def applyPayload (record payload : List (String × PVal)) : List (String × PVal) :=
  payload.foldl (fun obj kv => jsObjSet obj kv.1 kv.2) record

/-- `upsertSummaryRecords(itemCode, warehouse, location, summaryData)` acting
on a persisted store (modelled as an association list from the composite
summary id to the record's fields; the kintone app holds one record per
summary id).  For every summary entry the `recordData` payload is built; an
entry whose key already exists has that payload `PUT` onto the existing
record, the rest are created from the payload. -/
def upsertSummaryRecords (store : List (SKey × List (String × PVal)))
    (itemCode warehouse location : String) (summaryData : List SummaryEntry) :
    List (SKey × List (String × PVal)) :=
  let entries := summaryData.map fun data =>
    ((⟨itemCode, warehouse, location, data.date⟩ : SKey),
      buildRecordData itemCode warehouse location data)
  let updated := store.map fun kv =>
    (kv.1,
      match assocLookup entries kv.1 with
      | some payload => applyPayload kv.2 payload
      | none => kv.2)
  let created := entries.filter fun e => (assocLookup store e.1).isNone
  updated ++ created

/-! ### Balance updater (`updateInventoryBalance`, balance-update script) -/

/-- The pure core of `updateInventoryBalance`: the `switch (transactionType)`
computing the new quantity and new average cost from the current balance and
one confirmed transaction.  `none` models the early `return` of the
`default:` branch (unknown transaction type); every known type, including an
issuance that drives the quantity negative, produces an updated balance (a
negative result is only logged as a warning in the source). -/
def updateBalanceCore (currentQty currentCost : ℚ) (transactionType : String)
    (quantity unitCost physicalCount : ℚ) : Option (ℚ × ℚ) :=
  if transactionType = TYPE_RECEIVED then
    some (currentQty + quantity,
      calculateMovingAverageCost currentQty currentCost quantity unitCost)
  else if transactionType = TYPE_ISSUED then
    some (currentQty - quantity, currentCost)
  else if transactionType = TYPE_ADJUSTMENT then
    some (physicalCount, currentCost)
  else if transactionType = TYPE_INITIAL then
    some (quantity, unitCost)
  else none

/-! ### Batch balance recomputation (`updateBalanceForGroup`, inventory_batch_update.js) -/

/-- One iteration of the `for (const record of confirmedRecords)` loop in
`updateBalanceForGroup`, acting on the accumulator
`(currentQty, totalValue)`.  Note the source compares against the literal
string `'棚卸'` here (not the config's `'棚卸調整'`). -/
def updateBalanceGroupStep (acc : ℚ × ℚ) (r : Tx) : ℚ × ℚ :=
  if r.txType = TYPE_RECEIVED then (acc.1 + r.quantity, acc.2 + r.quantity * r.unit_cost)
  else if r.txType = TYPE_ISSUED then (acc.1 - r.quantity, acc.2)
  else if r.txType = "棚卸" then (r.physical_count, acc.2)
  else if r.txType = TYPE_INITIAL then (r.quantity, r.quantity * r.unit_cost)
  else acc

/-- The quantity/total-value accumulation of `updateBalanceForGroup`:
records with status other than confirmed are filtered out, the rest are
folded over `(currentQty, totalValue)` starting from the fetched balance. -/
def updateBalanceForGroupTotals (records : List Tx) (init : ℚ × ℚ) : ℚ × ℚ :=
  (records.filter fun r => r.status = STATUS_CONFIRMED).foldl updateBalanceGroupStep init

/-- `const averageCost = currentQty > 0 ? totalValue / currentQty : 0`. -/
def batchAverageCost (totals : ℚ × ℚ) : ℚ :=
  if 0 < totals.1 then totals.2 / totals.1 else 0

/-- The average cost persisted by `updateBalanceForGroup`:
`Math.round(averageCost * 100) / 100`. -/
def updateBalanceForGroupStoredCost (records : List Tx) (init : ℚ × ℚ) : ℚ :=
  roundDecimal (batchAverageCost (updateBalanceForGroupTotals records init)) 2

/-! ### Field extraction (`getFieldValue` / `getNumberValue`, shared utils script) -/

/-- A JavaScript field value as stored in a kintone record object:
`undefined`, a string, an array of strings, or an array of user entities
(modelled by their `code`s). -/
inductive JSVal where
  | vundef : JSVal
  | vstr : String → JSVal
  | vlist : List String → JSVal
  | vusers : List String → JSVal
deriving DecidableEq

/-- One field object `{type, value}` of a kintone record. -/
structure RecordField where
  ftype : String
  value : JSVal
deriving DecidableEq

/-- A kintone record: field code to field object. -/
def KRecord : Type := List (String × RecordField)

/-- JavaScript falsiness of a field value (`undefined` and `''` are falsy;
arrays, even empty ones, are truthy). -/
def jsFalsy : JSVal → Bool
  | .vundef => true
  | .vstr s => s = ""
  | .vlist _ => false
  | .vusers _ => false

/-- `Utils.getFieldValue(record, fieldCode)`.  `record` is `Option`al to
model a null/undefined record argument. -/
def getFieldValue (record : Option KRecord) (fieldCode : String) : JSVal :=
  match record with
  | none => .vstr ""
  | some r =>
    if fieldCode = "" then .vstr ""
    else
      match assocLookup r fieldCode with
      | none => .vstr ""
      | some field =>
        if field.ftype = "SUBTABLE" then
          (if jsFalsy field.value then .vlist [] else field.value)
        else if field.ftype = "USER_SELECT" ∨ field.ftype = "CREATOR"
            ∨ field.ftype = "MODIFIER" then
          (match field.value with
           | .vusers (c :: _) => .vstr c
           | _ => .vstr "")
        else if field.ftype = "CHECK_BOX" ∨ field.ftype = "MULTI_SELECT" then
          (if jsFalsy field.value then .vlist [] else field.value)
        else
          (if jsFalsy field.value then .vstr "" else field.value)

/-- JavaScript string coercion of a field value, as applied by `parseFloat`
to a non-string argument. -/
def jsToString : JSVal → String
  | .vundef => "undefined"
  | .vstr s => s
  | .vlist xs => String.intercalate "," xs
  | .vusers _ => "[object Object]"

/-- Numeric value of a list of decimal digit characters. -/
def digitsVal (ds : List Char) : ℕ :=
  ds.foldl (fun a c => 10 * a + (c.toNat - 48)) 0

/-- Model of JavaScript `parseFloat` on the decimal-literal fragment: skip
leading whitespace, an optional sign, then digits with an optional fraction;
`none` models `NaN` (no digit found).  Trailing garbage is ignored, as
`parseFloat` does. -/
def jsParseFloat (v : JSVal) : Option ℚ :=
  let cs := (jsToString v).data.dropWhile fun c =>
    c == ' ' || c == '\t' || c == '\n' || c == '\r'
  let signAndRest : ℚ × List Char :=
    match cs with
    | '-' :: t => (-1, t)
    | '+' :: t => (1, t)
    | _ => (1, cs)
  let intPart := signAndRest.2.takeWhile Char.isDigit
  let afterInt := signAndRest.2.dropWhile Char.isDigit
  let fracPart : List Char :=
    match afterInt with
    | '.' :: t => t.takeWhile Char.isDigit
    | _ => []
  if intPart.isEmpty ∧ fracPart.isEmpty then none
  else
    some (signAndRest.1 *
      ((digitsVal intPart : ℚ) + (digitsVal fracPart : ℚ) / 10 ^ fracPart.length))

/-- `Utils.getNumberValue(record, fieldCode)`:
`const num = parseFloat(getFieldValue(record, fieldCode)); return isNaN(num) ? 0 : num;`. -/
def getNumberValue (record : Option KRecord) (fieldCode : String) : ℚ :=
  match jsParseFloat (getFieldValue record fieldCode) with
  | none => 0
  | some num => num

end StockApp

namespace StockApp

/-! ## General lemmas about association-list lookup -/

theorem assocLookup_append {α β : Type} [DecidableEq α] (l₁ l₂ : List (α × β)) (a : α) :
    assocLookup (l₁ ++ l₂) a = (assocLookup l₁ a).or (assocLookup l₂ a) := by
  induction l₁ with
  | nil => simp [assocLookup]
  | cons kv rest ih =>
    obtain ⟨k, v⟩ := kv
    by_cases h : k = a
    · simp [assocLookup, h]
    · simp [assocLookup, h, ih]

theorem assocLookup_map_update {α β : Type} [DecidableEq α] (l : List (α × β))
    (h : α → β → β) (a : α) :
    assocLookup (l.map fun kv => (kv.1, h kv.1 kv.2)) a = (assocLookup l a).map (h a) := by
  induction l with
  | nil => simp [assocLookup]
  | cons kv rest ih =>
    obtain ⟨k, v⟩ := kv
    by_cases hk : k = a
    · subst hk; simp [assocLookup]
    · simp [assocLookup, hk, ih]

theorem assocLookup_isSome_iff {α β : Type} [DecidableEq α] (l : List (α × β)) (a : α) :
    (assocLookup l a).isSome ↔ a ∈ l.map Prod.fst := by
  induction l with
  | nil => simp [assocLookup]
  | cons kv rest ih =>
    obtain ⟨k, v⟩ := kv
    by_cases h : k = a
    · subst h; simp [assocLookup]
    · simp [assocLookup, h, ih, Ne.symm h]

theorem assocLookup_eq_some_of_nodup {α β : Type} [DecidableEq α]
    {l : List (α × β)} (hn : (l.map Prod.fst).Nodup) {k : α} {v : β}
    (hm : (k, v) ∈ l) : assocLookup l k = some v := by
  induction l with
  | nil => cases hm
  | cons kv rest ih =>
    obtain ⟨k1, v1⟩ := kv
    rcases List.mem_cons.mp hm with h | h
    · injection h with h1 h2
      subst h1
      subst h2
      simp [assocLookup]
    · have hk : k1 ≠ k := by
        intro e
        subst e
        exact (List.nodup_cons.mp (by simpa using hn)).1
          (List.mem_map_of_mem Prod.fst h)
      simp only [assocLookup, if_neg hk]
      exact ih (List.nodup_cons.mp (by simpa using hn)).2 h

/-! ## C5 — Costing Function -/

/-- C5: `calculateMovingAverageCost` returns `currentCost` when
`addQty <= 0`, returns `0` when `addQty > 0` but `currentQty + addQty <= 0`,
and otherwise returns the 2-decimal rounding of the quantity-weighted
average; in particular `Costing(100, 10, 50, 13) = 11` and
`Costing(100, 10, -1, 0) = 10`. -/
theorem calculateMovingAverageCost_spec (currentQty currentCost addQty addCost : ℚ) :
    (addQty ≤ 0 →
      calculateMovingAverageCost currentQty currentCost addQty addCost = currentCost) ∧
    (0 < addQty → currentQty + addQty ≤ 0 →
      calculateMovingAverageCost currentQty currentCost addQty addCost = 0) ∧
    (0 < addQty → 0 < currentQty + addQty →
      calculateMovingAverageCost currentQty currentCost addQty addCost =
        roundDecimal ((currentQty * currentCost + addQty * addCost) / (currentQty + addQty)) 2) ∧
    calculateMovingAverageCost 100 10 50 13 = 11 ∧
    calculateMovingAverageCost 100 10 (-1) 0 = 10 := by
  refine ⟨fun h => ?_, fun h1 h2 => ?_, fun h1 h2 => ?_, ?_, ?_⟩
  · simp only [calculateMovingAverageCost, if_pos h]
  · simp only [calculateMovingAverageCost]
    rw [if_neg (by linarith), if_pos h2]
  · simp only [calculateMovingAverageCost]
    rw [if_neg (by linarith), if_neg (by linarith)]
  · norm_num [calculateMovingAverageCost, roundDecimal, jsRound]
  · norm_num [calculateMovingAverageCost]

/-- Witness for C5 at a concrete input with the hypotheses discharged. -/
theorem calculateMovingAverageCost_spec_witness :
    calculateMovingAverageCost 2 7 0 9 = 7 :=
  (calculateMovingAverageCost_spec 2 7 0 9).1 (by norm_num)

/-! ## C7 — Alert-flag classification -/

/-- C7: the two alert implementations are not extensionally equal.
`getAlertFlag` realises the claimed boundaries (`0 ↦ 在庫切れ`,
`5 ↦ 在庫少`, `-3 ↦ 在庫切れ`, `10 ↦ 正常` at threshold 10), but
`determineAlertFlag` reads the config properties `OUT_OF_STOCK` and
`LOW_STOCK`, which `ALERT_FLAGS` does not define (its keys are `OUT` and
`LOW`), so the two alert branches yield `undefined` (`none`). -/
theorem alertFlag_implementations_diverge :
    determineAlertFlag 0 10 = none ∧ getAlertFlag 0 10 = "在庫切れ" ∧
    determineAlertFlag 5 10 = none ∧ getAlertFlag 5 10 = "在庫少" ∧
    determineAlertFlag (-3) 10 = none ∧ getAlertFlag (-3) 10 = "在庫切れ" ∧
    determineAlertFlag 10 10 = some "正常" ∧ getAlertFlag 10 10 = "正常" := by
  decide

/-! ## C6 — Issued-transaction semantics -/

/-- C6 counterexample: in the batch recomputation, an issued transaction
does change the persisted average cost.  Starting from an empty balance,
a confirmed receipt of 100 at cost 10 yields average cost 10, but after a
further confirmed issue of 50 the recomputed average cost is 20 (the issue
reduces quantity but not `totalValue`), while the event-driven updater
keeps cost 10 for the same issue. -/
theorem batch_issuance_changes_average_cost :
    updateBalanceCore 100 10 TYPE_ISSUED 50 0 0 = some (50, 10) ∧
    updateBalanceForGroupStoredCost
      [⟨0, STATUS_CONFIRMED, TYPE_RECEIVED, 100, 10, 0, 0⟩] (0, 0) = 10 ∧
    updateBalanceForGroupStoredCost
      [⟨0, STATUS_CONFIRMED, TYPE_RECEIVED, 100, 10, 0, 0⟩,
       ⟨0, STATUS_CONFIRMED, TYPE_ISSUED, 50, 0, 0, 0⟩] (0, 0) = 20 ∧
    (20 : ℚ) ≠ 10 := by
  have hne : ("出庫" : String) ≠ "入庫" := by decide
  refine ⟨?_, ?_, ?_, by norm_num⟩
  · norm_num [updateBalanceCore, TYPE_ISSUED, TYPE_RECEIVED, hne]
  · have h : updateBalanceForGroupTotals
        [⟨0, STATUS_CONFIRMED, TYPE_RECEIVED, 100, 10, 0, 0⟩] (0, 0) = (100, 1000) := by
      norm_num [updateBalanceForGroupTotals, List.filter, updateBalanceGroupStep,
        STATUS_CONFIRMED, TYPE_RECEIVED, TYPE_ISSUED, TYPE_INITIAL, hne]
    unfold updateBalanceForGroupStoredCost
    rw [h]
    norm_num [batchAverageCost, roundDecimal, jsRound]
  · have h : updateBalanceForGroupTotals
        [⟨0, STATUS_CONFIRMED, TYPE_RECEIVED, 100, 10, 0, 0⟩,
         ⟨0, STATUS_CONFIRMED, TYPE_ISSUED, 50, 0, 0, 0⟩] (0, 0) = (50, 1000) := by
      norm_num [updateBalanceForGroupTotals, List.filter, updateBalanceGroupStep,
        STATUS_CONFIRMED, TYPE_RECEIVED, TYPE_ISSUED, TYPE_INITIAL, hne]
    unfold updateBalanceForGroupStoredCost
    rw [h]
    norm_num [batchAverageCost, roundDecimal, jsRound]

/-- C6 amended: the issued semantics (quantity decreased by `q`, cost state
unchanged, result always produced — negative quantities included) holds in
the event-driven updater, and in the batch recomputation an issued record
decreases the running quantity by `q` without touching the accumulated
value; the batch's final average cost is `totalValue / qty`, which can
change after an issue (see the counterexample). -/
theorem issued_semantics_amended :
    (∀ currentQty currentCost quantity unitCost physicalCount : ℚ,
      updateBalanceCore currentQty currentCost TYPE_ISSUED quantity unitCost physicalCount =
        some (currentQty - quantity, currentCost)) ∧
    (∀ (acc : ℚ × ℚ) (r : Tx), r.txType = TYPE_ISSUED →
      updateBalanceGroupStep acc r = (acc.1 - r.quantity, acc.2)) := by
  have hne : TYPE_ISSUED ≠ TYPE_RECEIVED := by decide
  constructor
  · intro currentQty currentCost quantity unitCost physicalCount
    simp [updateBalanceCore, hne]
  · intro acc r h
    simp [updateBalanceGroupStep, h, hne]

/-- Witness for the amended C6 statement at a concrete issued record. -/
theorem issued_semantics_amended_witness :
    updateBalanceGroupStep (100, 1000) ⟨0, STATUS_CONFIRMED, TYPE_ISSUED, 30, 0, 0, 0⟩ =
      (70, 1000) := by
  rw [issued_semantics_amended.2 (100, 1000)
    ⟨0, STATUS_CONFIRMED, TYPE_ISSUED, 30, 0, 0, 0⟩ rfl]
  norm_num

/-! ## Structural lemmas about the reconstructed series -/

theorem pastEntries_mem_spec (m : List (ℤ × DailyBucket)) (today : ℤ) :
    ∀ (n : ℕ) (q : ℚ) (e : SummaryEntry), e ∈ pastEntries m today q n →
      e.date < today ∧
      e.received_qty = (dailyGetOrZero m e.date).received_qty ∧
      e.issued_qty = (dailyGetOrZero m e.date).issued_qty ∧
      e.planned_received_qty = (dailyGetOrZero m e.date).planned_received_qty ∧
      e.planned_issued_qty = (dailyGetOrZero m e.date).planned_issued_qty ∧
      e.ending_qty = e.opening_qty + e.received_qty - e.issued_qty ∧
      e.projected_ending_qty = e.ending_qty + e.planned_received_qty - e.planned_issued_qty := by
  intro n
  induction n with
  | zero =>
    intro q e he
    simp [pastEntries] at he
  | succ k ih =>
    intro q e he
    simp only [pastEntries] at he
    rcases List.mem_cons.mp he with h | h
    · subst h
      refine ⟨?_, rfl, rfl, rfl, rfl, rfl, rfl⟩
      show today - ((k : ℤ) + 1) < today
      omega
    · exact ih _ e h

theorem futureEntries_mem_date_ge (m : List (ℤ × DailyBucket)) :
    ∀ (n : ℕ) (d : ℤ) (o p : ℚ) (e : SummaryEntry),
      e ∈ futureEntries m d o p n → d ≤ e.date := by
  intro n
  induction n with
  | zero =>
    intro d o p e he
    simp [futureEntries] at he
  | succ k ih =>
    intro d o p e he
    simp only [futureEntries] at he
    rcases List.mem_cons.mp he with h | h
    · subst h
      exact le_refl d
    · have := ih (d + 1) _ _ e h
      omega

theorem futureEntries_succ (m : List (ℤ × DailyBucket)) (d : ℤ) (o p : ℚ) (n : ℕ) :
    futureEntries m d o p (n + 1) =
      { date := d
        opening_qty := o
        received_qty := (dailyGetOrZero m d).received_qty
        issued_qty := (dailyGetOrZero m d).issued_qty
        ending_qty := o + (dailyGetOrZero m d).received_qty - (dailyGetOrZero m d).issued_qty
        planned_received_qty := (dailyGetOrZero m d).planned_received_qty
        planned_issued_qty := (dailyGetOrZero m d).planned_issued_qty
        projected_ending_qty := p + (dailyGetOrZero m d).received_qty
          - (dailyGetOrZero m d).issued_qty + (dailyGetOrZero m d).planned_received_qty
          - (dailyGetOrZero m d).planned_issued_qty } ::
      futureEntries m (d + 1)
        (o + (dailyGetOrZero m d).received_qty - (dailyGetOrZero m d).issued_qty)
        (p + (dailyGetOrZero m d).received_qty - (dailyGetOrZero m d).issued_qty
          + (dailyGetOrZero m d).planned_received_qty
          - (dailyGetOrZero m d).planned_issued_qty) n := rfl

/-! ## C2 — Anchor fidelity -/

/-- C2: for every current quantity, daily map and today, the entry the
reconstructor emits for today (the one `summaryData.find` locates, as in the
source's own verification log) has `ending_qty` equal to the authoritative
`currentQty`: today's opening is `currentQty - received + issued` and the
forward pass adds the same flows back. -/
theorem anchor_fidelity (currentQty : ℚ) (m : List (ℤ × DailyBucket)) (today : ℤ) :
    ((buildSummaryData currentQty m today).find? fun e => e.date == today).map
      SummaryEntry.ending_qty = some currentQty := by
  have hpast : ∀ e ∈ pastEntries m today
      (currentQty - (dailyGetOrZero m today).received_qty +
        (dailyGetOrZero m today).issued_qty) PAST_DAYS,
      ¬ (e.date == today) = true := by
    intro e he
    have hd := (pastEntries_mem_spec m today PAST_DAYS _ e he).1
    simp only [beq_iff_eq]
    exact ne_of_lt hd
  simp only [buildSummaryData, List.find?_append]
  rw [List.find?_eq_none.mpr hpast, Option.none_or]
  rw [futureEntries_succ, List.find?_cons_of_pos _ (by simp)]
  simp only [Option.map_some']
  congr 1
  show currentQty - (dailyGetOrZero m today).received_qty +
      (dailyGetOrZero m today).issued_qty +
      (dailyGetOrZero m today).received_qty - (dailyGetOrZero m today).issued_qty = currentQty
  ring

/-! ## C3 (amended) — what the backward pass actually emits -/

/-- C3 amended: every entry emitted for a past date carries that date's
planned bucket quantities (`planned_received_qty`/`planned_issued_qty` equal
to the aggregated planned flows, not constant 0), and its
`projected_ending_qty` equals `ending_qty + planned_received - planned_issued`
(which collapses to `ending_qty` exactly when no planned transactions fall
on that past date). -/
theorem past_entries_emission_shape (currentQty : ℚ) (m : List (ℤ × DailyBucket))
    (today : ℤ) :
    ∀ e ∈ buildSummaryData currentQty m today, e.date < today →
      e.planned_received_qty = (dailyGetOrZero m e.date).planned_received_qty ∧
      e.planned_issued_qty = (dailyGetOrZero m e.date).planned_issued_qty ∧
      e.projected_ending_qty =
        e.ending_qty + e.planned_received_qty - e.planned_issued_qty := by
  intro e he hd
  simp only [buildSummaryData] at he
  rcases List.mem_append.mp he with h | h
  · obtain ⟨-, -, -, h4, h5, -, h7⟩ := pastEntries_mem_spec m today PAST_DAYS _ e h
    exact ⟨h4, h5, h7⟩
  · exact absurd hd (not_lt.mpr (futureEntries_mem_date_ge m _ today _ _ e h))

/-- Witness for the amended C3 statement: the entry for `today - 1` in a run
with no transactions at all. -/
theorem past_entries_emission_shape_witness :
    (⟨-1, 0, 0, 0, 0, 0, 0, 0⟩ : SummaryEntry).planned_received_qty =
        (dailyGetOrZero []
          ((⟨-1, 0, 0, 0, 0, 0, 0, 0⟩ : SummaryEntry).date)).planned_received_qty ∧
      (⟨-1, 0, 0, 0, 0, 0, 0, 0⟩ : SummaryEntry).planned_issued_qty =
        (dailyGetOrZero []
          ((⟨-1, 0, 0, 0, 0, 0, 0, 0⟩ : SummaryEntry).date)).planned_issued_qty ∧
      (⟨-1, 0, 0, 0, 0, 0, 0, 0⟩ : SummaryEntry).projected_ending_qty =
        (⟨-1, 0, 0, 0, 0, 0, 0, 0⟩ : SummaryEntry).ending_qty +
          (⟨-1, 0, 0, 0, 0, 0, 0, 0⟩ : SummaryEntry).planned_received_qty -
          (⟨-1, 0, 0, 0, 0, 0, 0, 0⟩ : SummaryEntry).planned_issued_qty :=
  past_entries_emission_shape 0 [] 0 ⟨-1, 0, 0, 0, 0, 0, 0, 0⟩
    (by
      norm_num [buildSummaryData, pastEntries, futureEntries, dailyGetOrZero,
        assocLookup, zeroBucket, PAST_DAYS, FUTURE_DAYS])
    (by norm_num)

/-! ## C1 — Chain continuity of the reconstructed series -/

/-- C1: the backward pass breaks chain continuity.  With current quantity 0
and a single confirmed receipt of 5 two days before today, the emitted entry
for `today - 2` (index 28) has `ending_qty = 0` while the entry for
`today - 1` (index 29) has `opening_qty = -5`, so
`opening_qty(d+1) ≠ ending_qty(d)` for the adjacent dates `d = today - 2`,
`d + 1 = today - 1`: the source iterates the past window oldest-first while
the recurrence needs newest-first. -/
theorem backward_pass_chain_discontinuity :
    (buildSummaryData 0 [((-2 : ℤ), ⟨5, 0, 0, 0⟩)] 0).get? 28 =
      some ⟨-2, -5, 5, 0, 0, 0, 0, 0⟩ ∧
    (buildSummaryData 0 [((-2 : ℤ), ⟨5, 0, 0, 0⟩)] 0).get? 29 =
      some ⟨-1, -5, 0, 0, -5, 0, 0, -5⟩ ∧
    ((-5 : ℚ) ≠ 0) := by
  refine ⟨?_, ?_, by norm_num⟩
  · norm_num [buildSummaryData, pastEntries, futureEntries, dailyGetOrZero,
      assocLookup, zeroBucket, PAST_DAYS, FUTURE_DAYS]
  · norm_num [buildSummaryData, pastEntries, futureEntries, dailyGetOrZero,
      assocLookup, zeroBucket, PAST_DAYS, FUTURE_DAYS]

/-! ## C4 — Transaction Aggregator bucketing -/

theorem dailyGetOrZero_aggStep_self (m : List (ℤ × DailyBucket)) (tx : Tx) :
    dailyGetOrZero (aggStep m tx) tx.date = aggUpdate (dailyGetOrZero m tx.date) tx := by
  unfold aggStep
  by_cases h : (assocLookup m tx.date).isSome
  · rw [if_pos h]
    unfold dailyGetOrZero
    rw [assocLookup_map_update m (fun k b => if k = tx.date then aggUpdate b tx else b) tx.date]
    obtain ⟨b, hb⟩ := Option.isSome_iff_exists.mp h
    rw [hb]
    simp
  · rw [if_neg h]
    unfold dailyGetOrZero
    rw [assocLookup_append, Option.not_isSome_iff_eq_none.mp h]
    simp [assocLookup]

theorem dailyGetOrZero_aggStep_other (m : List (ℤ × DailyBucket)) (tx : Tx) (d : ℤ)
    (hd : d ≠ tx.date) :
    dailyGetOrZero (aggStep m tx) d = dailyGetOrZero m d := by
  unfold aggStep
  by_cases h : (assocLookup m tx.date).isSome
  · rw [if_pos h]
    unfold dailyGetOrZero
    rw [assocLookup_map_update m (fun k b => if k = tx.date then aggUpdate b tx else b) d]
    cases hx : assocLookup m d with
    | none => simp
    | some b => simp [hd]
  · rw [if_neg h]
    unfold dailyGetOrZero
    rw [assocLookup_append]
    have hone : assocLookup [(tx.date, aggUpdate zeroBucket tx)] d = none := by
      have hne : tx.date ≠ d := fun e => hd e.symm
      simp [assocLookup, hne]
    rw [hone]
    cases assocLookup m d <;> simp

/-- C4: effect of one transaction on the daily buckets.  A confirmed
received/initial adds its quantity to that date's `received_qty`, a
confirmed issued adds to `issued_qty`, a confirmed adjustment adds
`physical_count - before_qty` to `received_qty` when positive and its
absolute value to `issued_qty` when negative (no effect when zero), a
planned received/initial or issued adds only to the corresponding planned
bucket, a cancelled or unrecognized-type transaction changes no bucket
value (and raises no error — the step is total), and dates other than the
transaction's are never touched. -/
theorem aggregate_bucket_rules (m : List (ℤ × DailyBucket)) (tx : Tx) :
    (tx.status = STATUS_CONFIRMED →
      tx.txType = TYPE_RECEIVED ∨ tx.txType = TYPE_INITIAL →
      dailyGetOrZero (aggStep m tx) tx.date =
        { dailyGetOrZero m tx.date with
            received_qty := (dailyGetOrZero m tx.date).received_qty + tx.quantity }) ∧
    (tx.status = STATUS_CONFIRMED → tx.txType = TYPE_ISSUED →
      dailyGetOrZero (aggStep m tx) tx.date =
        { dailyGetOrZero m tx.date with
            issued_qty := (dailyGetOrZero m tx.date).issued_qty + tx.quantity }) ∧
    (tx.status = STATUS_CONFIRMED → tx.txType = TYPE_ADJUSTMENT →
      0 < tx.physical_count - tx.before_qty →
      dailyGetOrZero (aggStep m tx) tx.date =
        { dailyGetOrZero m tx.date with
            received_qty := (dailyGetOrZero m tx.date).received_qty +
              (tx.physical_count - tx.before_qty) }) ∧
    (tx.status = STATUS_CONFIRMED → tx.txType = TYPE_ADJUSTMENT →
      tx.physical_count - tx.before_qty < 0 →
      dailyGetOrZero (aggStep m tx) tx.date =
        { dailyGetOrZero m tx.date with
            issued_qty := (dailyGetOrZero m tx.date).issued_qty +
              |tx.physical_count - tx.before_qty| }) ∧
    (tx.status = STATUS_CONFIRMED → tx.txType = TYPE_ADJUSTMENT →
      tx.physical_count - tx.before_qty = 0 →
      dailyGetOrZero (aggStep m tx) tx.date = dailyGetOrZero m tx.date) ∧
    (tx.status = STATUS_PLANNED →
      tx.txType = TYPE_RECEIVED ∨ tx.txType = TYPE_INITIAL →
      dailyGetOrZero (aggStep m tx) tx.date =
        { dailyGetOrZero m tx.date with
            planned_received_qty := (dailyGetOrZero m tx.date).planned_received_qty +
              tx.quantity }) ∧
    (tx.status = STATUS_PLANNED → tx.txType = TYPE_ISSUED →
      dailyGetOrZero (aggStep m tx) tx.date =
        { dailyGetOrZero m tx.date with
            planned_issued_qty := (dailyGetOrZero m tx.date).planned_issued_qty +
              tx.quantity }) ∧
    (tx.status = STATUS_CANCELLED ∨
        (tx.txType ≠ TYPE_RECEIVED ∧ tx.txType ≠ TYPE_ISSUED ∧
          tx.txType ≠ TYPE_ADJUSTMENT ∧ tx.txType ≠ TYPE_INITIAL) →
      ∀ d : ℤ, dailyGetOrZero (aggStep m tx) d = dailyGetOrZero m d) ∧
    (∀ d : ℤ, d ≠ tx.date → dailyGetOrZero (aggStep m tx) d = dailyGetOrZero m d) := by
  have hself := dailyGetOrZero_aggStep_self m tx
  have q1 : TYPE_ISSUED ≠ TYPE_RECEIVED := by decide
  have q2 : TYPE_ISSUED ≠ TYPE_INITIAL := by decide
  have q3 : TYPE_ADJUSTMENT ≠ TYPE_RECEIVED := by decide
  have q4 : TYPE_ADJUSTMENT ≠ TYPE_INITIAL := by decide
  have q5 : TYPE_ADJUSTMENT ≠ TYPE_ISSUED := by decide
  have s1 : STATUS_PLANNED ≠ STATUS_CONFIRMED := by decide
  have s2 : STATUS_CANCELLED ≠ STATUS_CONFIRMED := by decide
  have s3 : STATUS_CANCELLED ≠ STATUS_PLANNED := by decide
  refine ⟨?_, ?_, ?_, ?_, ?_, ?_, ?_, ?_, ?_⟩
  · rintro hs (ht | ht) <;> rw [hself] <;> simp [aggUpdate, hs, ht]
  · intro hs ht
    rw [hself]
    simp [aggUpdate, hs, ht, q1, q2]
  · intro hs ht h3
    rw [hself]
    simp [aggUpdate, hs, ht, q3, q4, q5, h3]
  · intro hs ht h3
    rw [hself]
    have hno : ¬ (0 < tx.physical_count - tx.before_qty) := by linarith
    simp [aggUpdate, hs, ht, q3, q4, q5, hno, h3]
  · intro hs ht h3
    rw [hself]
    simp [aggUpdate, hs, ht, q3, q4, q5, h3]
  · rintro hs (ht | ht) <;> rw [hself] <;> simp [aggUpdate, hs, ht, s1]
  · intro hs ht
    rw [hself]
    simp [aggUpdate, hs, ht, s1, q1, q2]
  · intro h d
    by_cases hd : d = tx.date
    · subst hd
      rw [hself]
      rcases h with hc | ⟨h1, h2, h3, h4⟩
      · simp [aggUpdate, hc, s2, s3]
      · by_cases hs : tx.status = STATUS_CONFIRMED
        · simp [aggUpdate, hs, h1, h2, h3, h4]
        · by_cases hp : tx.status = STATUS_PLANNED
          · simp [aggUpdate, hs, hp, s1, h1, h2, h4]
          · simp [aggUpdate, hs, hp]
    · exact dailyGetOrZero_aggStep_other m tx d hd
  · intro d hd
    exact dailyGetOrZero_aggStep_other m tx d hd

/-- Witness for C4 at a concrete confirmed receipt on an empty map. -/
theorem aggregate_bucket_rules_witness :
    dailyGetOrZero (aggStep [] ⟨5, STATUS_CONFIRMED, TYPE_RECEIVED, 2, 0, 0, 0⟩) 5 =
      { dailyGetOrZero [] 5 with
          received_qty := (dailyGetOrZero [] 5).received_qty + 2 } :=
  (aggregate_bucket_rules [] ⟨5, STATUS_CONFIRMED, TYPE_RECEIVED, 2, 0, 0, 0⟩).1
    rfl (Or.inl rfl)

/-! ## C3 — Backward-pass emission shape -/

/-! ## C10 — Numeric field extraction is total and defaults to zero -/

theorem jsParseFloat_vstr_empty : jsParseFloat (JSVal.vstr "") = none := rfl

theorem jsParseFloat_vlist_empty : jsParseFloat (JSVal.vlist []) = none := rfl

theorem getNumberValue_eq_zero_of_parse_none (record : Option KRecord)
    (fieldCode : String)
    (h : jsParseFloat (getFieldValue record fieldCode) = none) :
    getNumberValue record fieldCode = 0 := by
  simp [getNumberValue, h]

/-- C10: `getNumberValue` always yields a rational (it is total by
construction, `NaN` being mapped to 0), and yields 0 whenever the record is
null, the field code is blank, the field is absent from the record, the
field's value is the blank string, or the value does not parse as a
number. -/
theorem getNumberValue_defaults_to_zero (record : Option KRecord) (fieldCode : String) :
    (∀ r : KRecord, record = some r → assocLookup r fieldCode = none →
      getNumberValue record fieldCode = 0) ∧
    (record = none → getNumberValue record fieldCode = 0) ∧
    (fieldCode = "" → getNumberValue record fieldCode = 0) ∧
    (∀ (r : KRecord) (fld : RecordField), record = some r →
      assocLookup r fieldCode = some fld → fld.value = JSVal.vstr "" →
      getNumberValue record fieldCode = 0) ∧
    (∀ (r : KRecord) (fld : RecordField) (s : String), record = some r →
      assocLookup r fieldCode = some fld → fld.value = JSVal.vstr s →
      jsParseFloat (JSVal.vstr s) = none →
      getNumberValue record fieldCode = 0) := by
  refine ⟨?_, ?_, ?_, ?_, ?_⟩
  · rintro r rfl hl
    apply getNumberValue_eq_zero_of_parse_none
    by_cases hfc : fieldCode = ""
    · simp [getFieldValue, hfc, jsParseFloat_vstr_empty]
    · simp [getFieldValue, hfc, hl, jsParseFloat_vstr_empty]
  · rintro rfl
    apply getNumberValue_eq_zero_of_parse_none
    simp [getFieldValue, jsParseFloat_vstr_empty]
  · intro hfc
    rcases record with _ | r
    · apply getNumberValue_eq_zero_of_parse_none
      simp [getFieldValue, jsParseFloat_vstr_empty]
    · apply getNumberValue_eq_zero_of_parse_none
      simp [getFieldValue, hfc, jsParseFloat_vstr_empty]
  · rintro r fld rfl hl hv
    apply getNumberValue_eq_zero_of_parse_none
    by_cases hfc : fieldCode = ""
    · simp [getFieldValue, hfc, jsParseFloat_vstr_empty]
    · simp only [getFieldValue, hfc, if_false, hl]
      rw [hv]
      split_ifs <;> exact jsParseFloat_vstr_empty
  · rintro r fld s rfl hl hv hparse
    apply getNumberValue_eq_zero_of_parse_none
    by_cases hfc : fieldCode = ""
    · simp [getFieldValue, hfc, jsParseFloat_vstr_empty]
    · simp only [getFieldValue, hfc, if_false, hl]
      rw [hv]
      split_ifs <;> first
        | exact jsParseFloat_vstr_empty
        | exact jsParseFloat_vlist_empty
        | exact hparse

/-- Witness for C10: the quantity field of an empty record reads as 0. -/
theorem getNumberValue_defaults_to_zero_witness :
    getNumberValue (some []) "quantity" = 0 :=
  (getNumberValue_defaults_to_zero (some []) "quantity").1 [] rfl rfl

/-! ## C9 — Summary Merger idempotence -/

theorem pastEntries_dates (m : List (ℤ × DailyBucket)) (today : ℤ) :
    ∀ (n : ℕ) (q : ℚ), (pastEntries m today q n).map SummaryEntry.date =
      (List.range n).map (fun j : ℕ => today - (n : ℤ) + (j : ℤ)) := by
  intro n
  induction n with
  | zero =>
    intro q
    simp [pastEntries]
  | succ k ih =>
    intro q
    simp only [pastEntries, List.map_cons, ih]
    rw [List.range_succ_eq_map]
    simp only [List.map_cons, List.map_map]
    congr 1
    · push_cast
      ring
    · apply List.map_congr_left
      intro j _
      show today - (k : ℤ) + j = today - ((k : ℕ) + 1 : ℕ) + ((j + 1 : ℕ) : ℤ)
      push_cast
      ring

theorem futureEntries_dates (m : List (ℤ × DailyBucket)) :
    ∀ (n : ℕ) (d : ℤ) (o p : ℚ), (futureEntries m d o p n).map SummaryEntry.date =
      (List.range n).map (fun j : ℕ => d + (j : ℤ)) := by
  intro n
  induction n with
  | zero =>
    intro d o p
    simp [futureEntries]
  | succ k ih =>
    intro d o p
    simp only [futureEntries, List.map_cons, ih]
    rw [List.range_succ_eq_map]
    simp only [List.map_cons, List.map_map]
    congr 1
    · push_cast
      ring
    · apply List.map_congr_left
      intro j _
      show d + 1 + (j : ℤ) = d + ((j + 1 : ℕ) : ℤ)
      push_cast
      ring

theorem buildSummaryData_dates (currentQty : ℚ) (m : List (ℤ × DailyBucket))
    (today : ℤ) :
    (buildSummaryData currentQty m today).map SummaryEntry.date =
      (List.range (PAST_DAYS + (FUTURE_DAYS + 1))).map
        (fun j : ℕ => today - (PAST_DAYS : ℤ) + (j : ℤ)) := by
  simp only [buildSummaryData, List.map_append, pastEntries_dates, futureEntries_dates]
  conv_rhs => rw [List.range_add, List.map_append, List.map_map]
  congr 1
  apply List.map_congr_left
  intro j _
  show today + (j : ℤ) = today - (PAST_DAYS : ℤ) + ((PAST_DAYS + j : ℕ) : ℤ)
  push_cast [PAST_DAYS]
  ring

theorem buildSummaryData_dates_nodup (currentQty : ℚ) (m : List (ℤ × DailyBucket))
    (today : ℤ) :
    ((buildSummaryData currentQty m today).map SummaryEntry.date).Nodup := by
  rw [buildSummaryData_dates]
  refine List.Nodup.map ?_ (List.nodup_range _)
  intro a b h
  have h2 : today - (PAST_DAYS : ℤ) + (a : ℤ) = today - (PAST_DAYS : ℤ) + (b : ℤ) := h
  omega

/-- C9: the persisted payload never contains the recomputed opening and
received quantities.  `recordData` builds those fields from
`CONFIG.FIELDS.PROJECTION.OPENING_QTY`, `.RECEIVED_QTY` and `.ISSUED_QTY`,
none of which the config defines, so the three computed property names
collapse into the single literal `"undefined"`, whose final value is the
issued quantity; no `opening_qty`, `received_qty` or `issued_qty` field (nor
the config's intended `beginning_qty` / `actual_received_qty` /
`actual_issued_qty`) is ever written, while the defined keys
(`ending_qty`, the planned fields, `projected_ending_qty`) are.  Evaluated
at a concrete entry with opening 3, received 2, issued 1, ending 4; the
last conjunct shows the record is still keyed by the composite summary
id. -/
theorem upsert_payload_drops_recomputed_fields :
    assocLookup (buildRecordData "A001" "TKY" "A01" ⟨0, 3, 2, 1, 4, 0, 0, 4⟩)
      "opening_qty" = none ∧
    assocLookup (buildRecordData "A001" "TKY" "A01" ⟨0, 3, 2, 1, 4, 0, 0, 4⟩)
      "received_qty" = none ∧
    assocLookup (buildRecordData "A001" "TKY" "A01" ⟨0, 3, 2, 1, 4, 0, 0, 4⟩)
      "issued_qty" = none ∧
    assocLookup (buildRecordData "A001" "TKY" "A01" ⟨0, 3, 2, 1, 4, 0, 0, 4⟩)
      "beginning_qty" = none ∧
    assocLookup (buildRecordData "A001" "TKY" "A01" ⟨0, 3, 2, 1, 4, 0, 0, 4⟩)
      "actual_received_qty" = none ∧
    assocLookup (buildRecordData "A001" "TKY" "A01" ⟨0, 3, 2, 1, 4, 0, 0, 4⟩)
      "actual_issued_qty" = none ∧
    assocLookup (buildRecordData "A001" "TKY" "A01" ⟨0, 3, 2, 1, 4, 0, 0, 4⟩)
      "undefined" = some (PVal.pnum 1) ∧
    assocLookup (buildRecordData "A001" "TKY" "A01" ⟨0, 3, 2, 1, 4, 0, 0, 4⟩)
      "ending_qty" = some (PVal.pnum 4) ∧
    assocLookup (buildRecordData "A001" "TKY" "A01" ⟨0, 3, 2, 1, 4, 0, 0, 4⟩)
      "projected_ending_qty" = some (PVal.pnum 4) ∧
    (upsertSummaryRecords [] "A001" "TKY" "A01" [⟨0, 3, 2, 1, 4, 0, 0, 4⟩]).map
      Prod.fst = [⟨"A001", "TKY", "A01", 0⟩] := by
  refine ⟨?_, ?_, ?_, ?_, ?_, ?_, ?_, ?_, ?_, ?_⟩ <;>
    simp [buildRecordData, jsObjSet, projField, propGet, PROJECTION_FIELDS,
      assocLookup, upsertSummaryRecords]

/-! ## C8 — Stockout prediction minimality -/

/-- C8: over a date-sorted series (as every generated `summaryData` is), the
stockout check reports a date `D` iff some entry has date `D`, strictly after
today, with `projected_ending_qty ≤ 0`, and every strictly earlier future
entry has a positive projection; it reports nothing iff no future entry has
`projected_ending_qty ≤ 0`. -/
theorem checkStockoutAlert_spec (today : ℤ) (l : List SummaryEntry)
    (hl : l.Pairwise fun a b => a.date < b.date) (D : ℤ) :
    (checkStockoutAlert today l = some D ↔
      ∃ e ∈ l, e.date = D ∧ today < e.date ∧ e.projected_ending_qty ≤ 0 ∧
        ∀ e2 ∈ l, today < e2.date → e2.date < D →
          ¬ e2.projected_ending_qty ≤ 0) ∧
    (checkStockoutAlert today l = none ↔
      ∀ e ∈ l, today < e.date → ¬ e.projected_ending_qty ≤ 0) := by
  constructor
  · induction hl with
    | nil => simp [checkStockoutAlert]
    | @cons a tl h1 h2 ih =>
      by_cases pa : today < a.date ∧ a.projected_ending_qty ≤ 0
      · have hhead : checkStockoutAlert today (a :: tl) = some a.date := by
          simp only [checkStockoutAlert]
          rw [List.find?_cons_of_pos _ (by simp [pa.1, pa.2])]
          rfl
        rw [hhead]
        constructor
        · intro hsome
          have hD : a.date = D := Option.some.inj hsome
          refine ⟨a, List.mem_cons_self a tl, hD, pa.1, pa.2, ?_⟩
          intro e2 he2 hf2 hlt2
          rcases List.mem_cons.mp he2 with rfl | h2m
          · exact absurd (hD ▸ hlt2) (lt_irrefl _)
          · have := h1 e2 h2m
            intro _
            exact absurd hlt2 (not_lt.mpr (le_of_lt (hD ▸ this)))
        · rintro ⟨e, he, hD, hf, hp, hmin⟩
          rcases List.mem_cons.mp he with rfl | hetl
          · exact congrArg some hD
          · exfalso
            have hlt : a.date < D := hD ▸ h1 e hetl
            exact hmin a (List.mem_cons_self a tl) pa.1 hlt pa.2
      · have hstep : checkStockoutAlert today (a :: tl) = checkStockoutAlert today tl := by
          simp only [checkStockoutAlert]
          rw [List.find?_cons_of_neg]
          intro hcontra
          simp only [Bool.and_eq_true, decide_eq_true_eq] at hcontra
          exact pa hcontra
        rw [hstep, ih]
        constructor
        · rintro ⟨e, he, hD, hf, hp, hmin⟩
          refine ⟨e, List.mem_cons_of_mem a he, hD, hf, hp, ?_⟩
          intro e2 he2 hf2 hlt2
          rcases List.mem_cons.mp he2 with rfl | h2m
          · intro hple
            exact pa ⟨hf2, hple⟩
          · exact hmin e2 h2m hf2 hlt2
        · rintro ⟨e, he, hD, hf, hp, hmin⟩
          rcases List.mem_cons.mp he with rfl | hetl
          · exact absurd ⟨hf, hp⟩ pa
          · exact ⟨e, hetl, hD, hf, hp,
              fun e2 h2 => hmin e2 (List.mem_cons_of_mem a h2)⟩
  · simp only [checkStockoutAlert, Option.map_eq_none', List.find?_eq_none,
      Bool.and_eq_true, decide_eq_true_eq, not_and]

/-- Witness for C8: a one-entry series with a future non-positive projection
is reported at that date. -/
theorem checkStockoutAlert_spec_witness :
    checkStockoutAlert 0 [⟨1, 0, 0, 0, 0, 0, 0, -1⟩] = some 1 := by
  apply ((checkStockoutAlert_spec 0 [⟨1, 0, 0, 0, 0, 0, 0, -1⟩] (by simp) 1).1).mpr
  refine ⟨⟨1, 0, 0, 0, 0, 0, 0, -1⟩, by simp, rfl, by norm_num, by norm_num, ?_⟩
  intro e2 he2 _ hlt
  rcases List.mem_singleton.mp he2 with rfl
  exact absurd hlt (lt_irrefl _)

/-- C3 counterexample: a planned receipt of 7 dated `today - 1` is emitted
in that past entry's `planned_received_qty` (7, not 0) and its
`projected_ending_qty` is `ending_qty + 7 = 7`, not `ending_qty = 0`. -/
theorem past_entry_planned_fields_nonzero :
    (buildSummaryData 0 [((-1 : ℤ), ⟨0, 0, 7, 0⟩)] 0).get? 29 =
      some ⟨-1, 0, 0, 0, 0, 7, 0, 7⟩ ∧ ((7 : ℚ) ≠ 0) := by
  refine ⟨?_, by norm_num⟩
  norm_num [buildSummaryData, pastEntries, futureEntries, dailyGetOrZero,
    assocLookup, zeroBucket, PAST_DAYS, FUTURE_DAYS]

end StockApp
